import Mathlib

/-!
Shallow embedding of the asynchronous organization-onboarding protocol of the
ident service (packages `organization` and `application`).

Each NATS message handler from `organization/consumer.go` is embedded as a
pure Lean function from a decoded message together with an environment (the
responses of the database and of the external collaborators: token issuer,
vault service, ledger service, broker) to a trace of observable effects plus
a terminal broker signal.  The environment fixes, for a single delivery, the
answer each collaborator call would return; the handler functions mirror the
Go control flow statement by statement.

Machine-level details that the handlers never branch on (JSON syntax, UUID
byte layout, hex payload contents) are abstracted into Boolean success flags
carried by the decoded message or the environment, exactly at the points
where the Go code checks an error result.
-/

namespace Ident

/-- Terminal broker signal of one handler run: `msg.Ack()`, `msg.Nak()`, or a
plain `return` that sends neither. -/
inductive Signal where
  | ack
  | nak
  | silent
deriving DecidableEq, Repr

/-- A vault key as observed by the consumers (`vault.Key` fields that the
handlers read; a `none` models a nil pointer). -/
structure VKey where
  name : Option String
  keySpec : Option String
  address : Option String
  public_key : Option String
deriving DecidableEq, Repr

/-- An ident service token row as observed by the registration handler. -/
structure TokenRec where
  scope : Option String
deriving DecidableEq, Repr

/-- Modelled from the spec: `common.StringOrNil` is a helper of this
repository whose source is not among the excerpted files.  The spec says the
organization attributes must be "resolvable", and an empty string is not a
resolvable attribute value, so the helper yields `none` for the empty string
and wraps any other string. -/
def StringOrNil (s : String) : Option String :=
  if s = "" then none else some s

/-- Observable effects of one handler run, in program order: structured log
warnings, collaborator calls, broker publishes, and the trailing organization
update. -/
inductive Effect where
  | logWarn (message : String)
  | vendOrgToken
  | vendAppToken (scope : Option String)
  | listVaults
  | listKeys (keySpec : Option String)
  | createVault
  | createKey
  | signMessage
  | publishInit (organizationID peerOrganizationID : String)
  | publishComplete (organizationID peerOrganizationID : String)
  | listContracts
  | getContractDetails (contractID : String)
  | createWallet
  | executeContract (contractID method : String) (args : List String) (walletID : String)
  | orgUpdate (addr : Option String)
deriving DecidableEq, Repr

/-! ## Vault Provisioner: `consumeCreatedOrganizationMsg` -/

/-- Decoded `organization.created` message: `parseOk` is the success of
`json.Unmarshal`, `organization_id` is the string field when present with
string type. -/
structure CreatedOrgMsg where
  parseOk : Bool
  organization_id : Option String
deriving DecidableEq, Repr

/-- Environment of one `consumeCreatedOrganizationMsg` run: whether the
database lookup resolves the organization, its name, whether the org token
vends, and the result of `vault.CreateVault`. -/
structure CreatedOrgEnv where
  orgResolved : Bool
  orgName : String
  vendOrgToken : Bool
  createVault : Except Unit String
deriving Repr

/-- Handler `consumeCreatedOrganizationMsg` from `organization/consumer.go`: resolve
the organization, vend an organization-scoped token, create the default
vault; ack on success, nak on any failure. -/
def consumeCreatedOrganizationMsg (msg : CreatedOrgMsg) (env : CreatedOrgEnv) :
    List Effect × Signal :=
  if !msg.parseOk then
    ([.logWarn "failed to unmarshal organization created message"], .nak)
  else match msg.organization_id with
  | none =>
    ([.logWarn "failed to unmarshal organization_id during created message handler"], .nak)
  | some _organizationID =>
    if !env.orgResolved then
      ([.logWarn "failed to resolve organization during created message handler"], .nak)
    else if !env.vendOrgToken then
      ([.vendOrgToken,
        .logWarn "failed to vend signed JWT for organization registration tx signing"], .nak)
    else match env.createVault with
    | .ok _vaultID =>
      ([.vendOrgToken, .createVault], .ack)
    | .error _ =>
      ([.vendOrgToken, .createVault,
        .logWarn "failed to create default vault for organization"], .nak)

/-- Number of `createVault` calls in a trace. -/
def countCreateVault (tr : List Effect) : Nat :=
  tr.countP fun e => match e with | .createVault => true | _ => false

/-! ## Key-Exchange Initiator: `consumeOrganizationImplicitKeyExchangeInitMsg` -/

/-- Decoded `organization.keys.exchange.init` message. -/
structure KexInitMsg where
  parseOk : Bool
  organization_id : Option String
  peer_organization_id : Option String
deriving DecidableEq, Repr

/-- Environment of one key-exchange-init run.  `signMessage` yields the
(optional, since the response carries a nullable pointer) signature string. -/
structure KexInitEnv where
  orgResolved : Bool
  vendOrgToken : Bool
  vaults : Except Unit (List String)
  keys : Except Unit (List VKey)
  createKey : Except Unit VKey
  signMessage : Except Unit (Option String)
deriving Repr

/-- The loop over the listed keys selecting the first key whose name is
present and case-insensitively equal to "ekho signing". -/
def findSigningKey (keys : List VKey) : Option VKey :=
  keys.find? fun key =>
    match key.name with
    | some n => n.toLower = "ekho signing"
    | none => false

/-- Handler `consumeOrganizationImplicitKeyExchangeInitMsg` from
`organization/consumer.go`.  A nil-pointer dereference in the Go code (on the
created key material or the signature) panics and is converted to a nak by
the deferred recover; those paths end in `.nak` here. -/
def consumeOrganizationImplicitKeyExchangeInitMsg (msg : KexInitMsg) (env : KexInitEnv) :
    List Effect × Signal :=
  if !msg.parseOk then
    ([.logWarn "failed to unmarshal organization implicit key exchange message"], .nak)
  else match msg.organization_id with
  | none =>
    ([.logWarn "failed to parse organization_id during implicit key exchange message handler"], .nak)
  | some organizationID =>
  match msg.peer_organization_id with
  | none =>
    ([.logWarn "failed to parse peer_organization_id during implicit key exchange message handler"], .nak)
  | some peerOrganizationID =>
  if !env.orgResolved then
    ([.logWarn "failed to resolve organization during implicit key exchange message handler"], .nak)
  else if !env.vendOrgToken then
    ([.vendOrgToken,
      .logWarn "failed to vend signed JWT for organization implicit key exchange"], .nak)
  else match env.vaults with
  | .error _ =>
    ([.vendOrgToken, .listVaults,
      .logWarn "failed to fetch vaults during implicit key exchange message handler"], .nak)
  | .ok vaults =>
  if vaults.length > 0 then
    match env.keys with
    | .error _ =>
      ([.vendOrgToken, .listVaults, .listKeys none,
        .logWarn "failed to fetch keys from vault during implicit key exchange message handler"], .nak)
    | .ok keys =>
    match findSigningKey keys with
    | some signingKey =>
      match env.createKey with
      | .error _ =>
        ([.vendOrgToken, .listVaults, .listKeys none, .createKey,
          .logWarn "failed to generate single-use c25519 public key for implicit key exchange"], .nak)
      | .ok c25519Key =>
      match c25519Key.public_key with
      | none =>
        -- nil dereference of the created key material: recovered panic, nak
        ([.vendOrgToken, .listVaults, .listKeys none, .createKey], .nak)
      | some _c25519PublicKey =>
      match env.signMessage with
      | .error _ =>
        ([.vendOrgToken, .listVaults, .listKeys none, .createKey, .signMessage,
          .logWarn "failed to sign single-use c25519 public key for implicit key exchange"], .nak)
      | .ok signatureField =>
      match signatureField with
      | none =>
        -- nil dereference of the signature in the response: recovered panic, nak
        ([.vendOrgToken, .listVaults, .listKeys none, .createKey, .signMessage], .nak)
      | some _c25519PublicKeySigned =>
      match signingKey.public_key, signingKey.keySpec with
      | some _, some _ =>
        ([.vendOrgToken, .listVaults, .listKeys none, .createKey, .signMessage,
          .publishInit organizationID peerOrganizationID], .ack)
      | _, _ =>
        -- nil dereference of the signing key fields in the payload: recovered panic, nak
        ([.vendOrgToken, .listVaults, .listKeys none, .createKey, .signMessage], .nak)
    | none =>
      ([.vendOrgToken, .listVaults, .listKeys none,
        .logWarn "failed to resolve signing key during implicit key exchange message handler"], .nak)
  else
    ([.vendOrgToken, .listVaults,
      .logWarn "failed to resolve signing key during implicit key exchange message handler"], .nak)

/-- Holds on broker publishes (either key-exchange subject). -/
def isPublish (e : Effect) : Bool :=
  match e with
  | .publishInit _ _ => true
  | .publishComplete _ _ => true
  | _ => false

/-! ## Key-Exchange Responder: `consumeOrganizationImplicitKeyExchangeCompleteMsg` -/

/-- Decoded `organization.keys.exchange.complete` message (the handler does
not parse `signing_spec`; that block is commented out in the source). -/
structure KexCompleteMsg where
  parseOk : Bool
  organization_id : Option String
  peer_organization_id : Option String
  public_key : Option String
  signing_key : Option String
  signature : Option String
deriving DecidableEq, Repr

/-- Environment of one key-exchange-complete run. -/
structure KexCompleteEnv where
  orgResolved : Bool
  vendOrgToken : Bool
  vaults : Except Unit (List String)
  keys : Except Unit (List VKey)
  decodePeerPublicKeyOk : Bool
  decodeSignatureOk : Bool
deriving Repr

/-- Handler `consumeOrganizationImplicitKeyExchangeCompleteMsg` from
`organization/consumer.go`.  The shared-secret derivation is replaced in the
source by an unconditional error value (the vault API does not expose the
capability), so the guarded ack branch is dead code. -/
def consumeOrganizationImplicitKeyExchangeCompleteMsg
    (msg : KexCompleteMsg) (env : KexCompleteEnv) : List Effect × Signal :=
  if !msg.parseOk then
    ([.logWarn "failed to unmarshal organization implicit key exchange message"], .nak)
  else match msg.organization_id with
  | none =>
    ([.logWarn "failed to parse organization_id during implicit key exchange message handler"], .nak)
  | some _organizationID =>
  match msg.peer_organization_id with
  | none =>
    ([.logWarn "failed to parse peer_organization_id during implicit key exchange message handler"], .nak)
  | some _peerOrganizationID =>
  match msg.public_key with
  | none =>
    ([.logWarn "failed to parse peer public key during implicit key exchange message handler"], .nak)
  | some _peerPublicKey =>
  match msg.signing_key with
  | none =>
    ([.logWarn "failed to parse peer signing key during implicit key exchange message handler"], .nak)
  | some _peerSigningKey =>
  match msg.signature with
  | none =>
    ([.logWarn "failed to parse signature during implicit key exchange message handler"], .nak)
  | some _signature =>
  if !env.orgResolved then
    ([.logWarn "failed to resolve organization during implicit key exchange message handler"], .nak)
  else if !env.vendOrgToken then
    ([.vendOrgToken,
      .logWarn "failed to vend signed JWT for organization implicit key exchange"], .nak)
  else match env.vaults with
  | .error _ =>
    ([.vendOrgToken, .listVaults,
      .logWarn "failed to fetch vaults during implicit key exchange message handler"], .nak)
  | .ok vaults =>
  if vaults.length > 0 then
    match env.keys with
    | .error _ =>
      ([.vendOrgToken, .listVaults, .listKeys none,
        .logWarn "failed to fetch keys from vault during implicit key exchange message handler"], .nak)
    | .ok keys =>
    let signingKey := findSigningKey keys
    if !env.decodePeerPublicKeyOk then
      ([.vendOrgToken, .listVaults, .listKeys none,
        .logWarn "failed to decode peer public key as hex during implicit key exchange message handler"], .nak)
    else if !env.decodeSignatureOk then
      ([.vendOrgToken, .listVaults, .listKeys none,
        .logWarn "failed to decode signature as hex during implicit key exchange message handler"], .nak)
    else match signingKey with
    | some _ =>
      -- err := errors.New("the CreateDiffieHellmanSharedSecret method is not
      -- exposed by the vault API yet"); the err == nil ack branch is dead
      ([.vendOrgToken, .listVaults, .listKeys none,
        .logWarn "failed to encrypt shared secret during implicit key exchange message handler"], .nak)
    | none =>
      ([.vendOrgToken, .listVaults, .listKeys none,
        .logWarn "failed to resolve signing key during implicit key exchange message handler"], .nak)
  else
    ([.vendOrgToken, .listVaults,
      .logWarn "failed to resolve signing key during implicit key exchange message handler"], .nak)

/-! ## Onboarding Trigger: `Application.addOrganization` and its fan-out
(`application` package, `initImplicitDiffieHellmanKeyExchange`,
`initOrgRegistration`). -/

/-- A message published to the broker by the Onboarding Trigger. -/
inductive PubMsg where
  | keyExchangeInit (organization_id peer_organization_id : String)
  | registration (application_id organization_id : String)
deriving DecidableEq, Repr

/-- Environment of one `addOrganization` call: the organizations currently
joined to the application (the rows of `OrganizationsListQuery`), the number
of rows affected by the association insert, and the decoded `baselined`
configuration flag (`none` when absent or not a Boolean). -/
structure AddOrgEnv where
  assocOrgs : List String
  insertRowsAffected : Nat
  baselined : Option Bool
deriving DecidableEq, Repr

/-- Fan-out `initImplicitDiffieHellmanKeyExchange`: for every peer organization of
the application other than the new organization, publish the two directed
key-exchange-init events. -/
def initImplicitDiffieHellmanKeyExchange (organizationID : String)
    (peers : List String) : List PubMsg :=
  peers.flatMap fun peerOrg =>
    [.keyExchangeInit organizationID peerOrg, .keyExchangeInit peerOrg organizationID]

/-- Fan-out `initOrgRegistration`: publish the single registration event. -/
def initOrgRegistration (applicationID organizationID : String) : List PubMsg :=
  [.registration applicationID organizationID]

/-- Method `Application.addOrganization`: insert the association row; on success,
when the application configuration carries a truthy `baselined` flag, fire
the registration fan-out and the pairwise key-exchange fan-out (the two
goroutine launches are modelled as the multiset of their publishes; the
claims quantified over this trigger only count messages and test
membership, which the goroutine interleaving does not affect). -/
def addOrganization (applicationID organizationID : String) (env : AddOrgEnv) :
    Bool × List PubMsg :=
  if env.insertRowsAffected = 1 then
    match env.baselined with
    | some true =>
      let peers := env.assocOrgs.filter fun p => p ≠ organizationID
      (true, initOrgRegistration applicationID organizationID ++
        initImplicitDiffieHellmanKeyExchange organizationID peers)
    | _ => (true, [])
  else
    (false, [])

/-- Number of key-exchange-init events among the published messages. -/
def countKexInit (pubs : List PubMsg) : Nat :=
  pubs.countP fun p => match p with | .keyExchangeInit _ _ => true | _ => false

/-- Number of registration events among the published messages. -/
def countRegistration (pubs : List PubMsg) : Nat :=
  pubs.countP fun p => match p with | .registration _ _ => true | _ => false

/-! ## Registration Coordinator: `consumeOrganizationRegistrationMsg` -/

def organizationRegistrationMethod : String := "registerOrg"
def organizationUpdateRegistrationMethod : String := "updateOrg"
def contractTypeOrgRegistry : String := "organization-registry"
def contractTypeERC1820Registry : String := "erc1820-registry"

/-- Decoded `organization.registration` message; `appUUIDOk` is the success
of `uuid.FromString` on the application id. -/
structure RegMsg where
  parseOk : Bool
  organization_id : Option String
  application_id : Option String
  appUUIDOk : Bool
  update_registry : Option Bool
deriving DecidableEq, Repr

/-- The organization metadata document as read by the handler: the three
keys it accesses, each `some` exactly when present with string type
(`addressPresent` is the `metadata["address"].(string)` assertion). -/
structure Metadata where
  messaging_endpoint : Option String
  domain : Option String
  addressPresent : Bool
deriving DecidableEq, Repr

/-- A deployed-contract details response (`GetContractDetails`): identifier,
declared type and on-chain address, the latter two nullable. -/
structure ContractDetail where
  id : String
  typ : Option String
  address : Option String
deriving DecidableEq, Repr

/-- Environment of one registration run: the database rows and collaborator
responses this delivery would observe, in the order the handler asks for
them. -/
structure RegEnv where
  orgResolved : Bool
  orgName : String
  metadata : Metadata
  vendOrgToken1 : Bool
  vaults : Except Unit (List String)
  secp256k1Keys : Except Unit (List VKey)
  babyJubJubKeys : Except Unit (List VKey)
  appTokens : List TokenRec
  vendAppToken : Bool
  contracts : Except Unit (List String)
  vendOrgToken2 : Bool
  createWallet : Except Unit String
  contractDetails : String → Except Unit ContractDetail
  executeContract : Except Unit Unit

/-- The registry references accumulated by the classification loop. -/
structure RegistryRefs where
  erc1820RegistryContractID : Option String := none
  erc1820RegistryContractAddress : Option String := none
  orgRegistryContractID : Option String := none
  orgRegistryContractAddress : Option String := none
deriving DecidableEq, Repr

/-- The `for _, c := range contracts` loop of the registration handler:
fetch the details of each listed contract (any fetch error naks the whole
delivery) and dispatch on the declared `type`, the last contract of a given
type winning. -/
def classifyContracts (details : String → Except Unit ContractDetail) :
    List String → RegistryRefs → List Effect × Except Unit RegistryRefs
  | [], acc => ([], .ok acc)
  | c :: cs, acc =>
    match details c with
    | .error _ =>
      ([.getContractDetails c,
        .logWarn "failed to resolve organization registry contract to which the organization registration tx should be sent"],
       .error ())
    | .ok resp =>
      let acc' :=
        match resp.typ with
        | some t =>
          if t = contractTypeERC1820Registry then
            { acc with
              erc1820RegistryContractID := StringOrNil resp.id
              erc1820RegistryContractAddress := resp.address }
          else if t = contractTypeOrgRegistry then
            { acc with
              orgRegistryContractID := StringOrNil resp.id
              orgRegistryContractAddress := resp.address }
          else acc
        | none => acc
      let rest := classifyContracts details cs acc'
      (.getContractDetails c :: rest.1, rest.2)

/-- Result of one registration run: the effect trace, the terminal signal,
the values of the four resolution locals (`orgAddress`, `orgDomain`,
`orgMessagingEndpoint`, `orgZeroKnowledgePublicKey`) at the return point,
and the application token row the ledger calls were authorized with (when
the run reached that step). -/
structure RegResult where
  trace : List Effect
  signal : Signal
  orgAddress : Option String := none
  orgDomain : Option String := none
  orgMessagingEndpoint : Option String := none
  orgZeroKnowledgePublicKey : Option String := none
  usedAppToken : Option TokenRec := none
deriving Repr

/-- The ledger stage of the registration handler (from the application-token
dispatch on `len(tokens) > 0` to the end of the function): list the deployed
contracts, vend the organization token, create the HD wallet, classify the
contracts, require both registry references and the wallet id, execute
`registerOrg`/`updateOrg`, and persist the amended metadata only after a
successful broadcast.  A broadcast error logs and returns with no
acknowledgment at all. -/
def registrationLedgerStage (env : RegEnv) (updateRegistry updateOrgMetadata : Bool)
    (tr1 : List Effect) (address domain messagingEndpoint zkPublicKey : String)
    (tokens : List TokenRec) : RegResult :=
  let base : RegResult :=
    { trace := [], signal := .nak, orgAddress := some address, orgDomain := some domain,
      orgMessagingEndpoint := some messagingEndpoint,
      orgZeroKnowledgePublicKey := some zkPublicKey, usedAppToken := none }
  match tokens with
  | [] =>
    { base with
      trace := tr1 ++ [.logWarn "failed to resolve API token during registration message handler"],
      signal := .nak }
  | tkn :: _ =>
    let base := { base with usedAppToken := some tkn }
    match env.contracts with
    | .error _ =>
      { base with
        trace := tr1 ++ [.listContracts,
          .logWarn "failed to resolve organization registry contract to which the organization registration tx should be sent"],
        signal := .nak }
    | .ok contracts =>
    if !env.vendOrgToken2 then
      { base with
        trace := tr1 ++ [.listContracts, .vendOrgToken,
          .logWarn "failed to vend signed JWT for organization registration tx signing"],
        signal := .nak }
    else match env.createWallet with
    | .error _ =>
      { base with
        trace := tr1 ++ [.listContracts, .vendOrgToken, .createWallet,
          .logWarn "failed to create organization HD wallet for organization registration tx should be sent"],
        signal := .nak }
    | .ok walletID =>
    let orgWalletID := StringOrNil walletID
    let cres := classifyContracts env.contractDetails contracts {}
    match cres.2 with
    | .error _ =>
      { base with
        trace := tr1 ++ [.listContracts, .vendOrgToken, .createWallet] ++ cres.1,
        signal := .nak }
    | .ok refs =>
    let tr2 := tr1 ++ [.listContracts, .vendOrgToken, .createWallet] ++ cres.1
    match refs.erc1820RegistryContractID, refs.erc1820RegistryContractAddress with
    | some _, some _ =>
      (match refs.orgRegistryContractID, refs.orgRegistryContractAddress with
      | some orgRegistryContractID, some _orgRegistryContractAddress =>
        (match orgWalletID with
        | none =>
          { base with
            trace := tr2 ++ [.logWarn "failed to resolve organization HD wallet for signing organization impl transaction transaction"],
            signal := .nak }
        | some wid =>
          let method :=
            if updateRegistry then organizationUpdateRegistrationMethod
            else organizationRegistrationMethod
          let args := [address, env.orgName, domain, messagingEndpoint, zkPublicKey, "\x7b\x7d"]
          let execEffect := Effect.executeContract orgRegistryContractID method args wid
          match env.executeContract with
          | .error _ =>
            { base with
              trace := tr2 ++ [execEffect,
                .logWarn "organization registry transaction broadcast failed on behalf of organization"],
              signal := .silent }
          | .ok _ =>
            if updateOrgMetadata then
              { base with
                trace := tr2 ++ [execEffect, .orgUpdate (some address)],
                signal := .ack }
            else
              { base with trace := tr2 ++ [execEffect], signal := .ack })
      | _, _ =>
        { base with
          trace := tr2 ++ [.logWarn "failed to resolve organization registry contract"],
          signal := .nak })
    | _, _ =>
      { base with
        trace := tr2 ++ [.logWarn "failed to resolve ERC1820 registry contract"],
        signal := .nak }

/-- The registration handler from the metadata parse onward (lines following
the vault-key resolution): parse `messaging_endpoint` and `domain`, mark the
metadata for a trailing update when `address` was absent, require the four
attributes in order with field-specific diagnostics, resolve or mint the
application token, and enter the ledger stage. -/
def registrationAfterKeys (env : RegEnv) (updateRegistry : Bool) (tr0 : List Effect)
    (orgAddress orgZeroKnowledgePublicKey : Option String) : RegResult :=
  let orgMessagingEndpoint : Option String :=
    match env.metadata.messaging_endpoint with
    | some messagingEndpoint => StringOrNil messagingEndpoint
    | none => none
  let updateOrgMetadata := !env.metadata.addressPresent
  let orgDomain : Option String :=
    match env.metadata.domain with
    | some domain => StringOrNil domain
    | none => none
  let base : RegResult :=
    { trace := [], signal := .nak, orgAddress := orgAddress, orgDomain := orgDomain,
      orgMessagingEndpoint := orgMessagingEndpoint,
      orgZeroKnowledgePublicKey := orgZeroKnowledgePublicKey }
  match orgAddress with
  | none =>
    { base with
      trace := tr0 ++ [.logWarn "failed to resolve organization public address for storage in the public org registry"],
      signal := .nak }
  | some address =>
  match orgDomain with
  | none =>
    { base with
      trace := tr0 ++ [.logWarn "failed to resolve organization domain for storage in the public org registry"],
      signal := .nak }
  | some domain =>
  match orgMessagingEndpoint with
  | none =>
    { base with
      trace := tr0 ++ [.logWarn "failed to resolve organization messaging endpoint for storage in the public org registry"],
      signal := .nak }
  | some messagingEndpoint =>
  match orgZeroKnowledgePublicKey with
  | none =>
    { base with
      trace := tr0 ++ [.logWarn "failed to resolve organization zero-knowledge public key for storage in the public org registry"],
      signal := .nak }
  | some zkPublicKey =>
  if env.appTokens.isEmpty then
    if !env.vendAppToken then
      { base with
        trace := tr0 ++ [.vendAppToken (some "offline_access"),
          .logWarn "failed to vend signed JWT for application with offline access"],
        signal := .nak }
    else
      registrationLedgerStage env updateRegistry updateOrgMetadata
        (tr0 ++ [.vendAppToken (some "offline_access")])
        address domain messagingEndpoint zkPublicKey
        (env.appTokens ++ [{ scope := some "offline_access" }])
  else
    registrationLedgerStage env updateRegistry updateOrgMetadata tr0
      address domain messagingEndpoint zkPublicKey env.appTokens

/-- Handler `consumeOrganizationRegistrationMsg` from `organization/consumer.go`:
decode the event, resolve the organization, vend an organization token, list
the vaults, extract the on-chain address from the first secp256k1 key and
the zero-knowledge public key from the first babyJubJub key, then continue
with the metadata and ledger stages. -/
def consumeOrganizationRegistrationMsg (msg : RegMsg) (env : RegEnv) : RegResult :=
  if !msg.parseOk then
    { trace := [.logWarn "failed to unmarshal organization registration message"], signal := .nak }
  else match msg.organization_id with
  | none =>
    { trace := [.logWarn "failed to parse organization_id during organization registration message handler"],
      signal := .nak }
  | some _organizationID =>
  match msg.application_id with
  | none =>
    { trace := [.logWarn "failed to parse application_id during organization registration message handler"],
      signal := .nak }
  | some _applicationID =>
  if !msg.appUUIDOk then
    { trace := [.logWarn "failed to parse application uuid during organization registration message handler"],
      signal := .nak }
  else
  let updateRegistry := match msg.update_registry with | some update => update | none => false
  if !env.orgResolved then
    { trace := [.logWarn "failed to resolve organization during registration message handler"],
      signal := .nak }
  else if !env.vendOrgToken1 then
    { trace := [.vendOrgToken,
        .logWarn "failed to vend signed JWT for organization implicit key exchange"],
      signal := .nak }
  else match env.vaults with
  | .error _ =>
    { trace := [.vendOrgToken, .listVaults,
        .logWarn "failed to fetch vaults during implicit key exchange message handler"],
      signal := .nak }
  | .ok vaults =>
  if vaults.length > 0 then
    match env.secp256k1Keys with
    | .error _ =>
      { trace := [.vendOrgToken, .listVaults, .listKeys (some "secp256k1"),
          .logWarn "failed to fetch secp256k1 keys from vault during implicit key exchange message handler"],
        signal := .nak }
    | .ok keys =>
    let orgAddress : Option String :=
      match keys with
      | key :: _ => (match key.address with | some a => StringOrNil a | none => none)
      | [] => none
    match env.babyJubJubKeys with
    | .error _ =>
      { trace := [.vendOrgToken, .listVaults, .listKeys (some "secp256k1"),
          .listKeys (some "babyJubJub"),
          .logWarn "failed to fetch babyJubJub keys from vault during implicit key exchange message handler"],
        signal := .nak, orgAddress := orgAddress }
    | .ok keys2 =>
    let orgZeroKnowledgePublicKey : Option String :=
      match keys2 with
      | key :: _ => (match key.public_key with | some pk => StringOrNil pk | none => none)
      | [] => none
    registrationAfterKeys env updateRegistry
      [.vendOrgToken, .listVaults, .listKeys (some "secp256k1"), .listKeys (some "babyJubJub")]
      orgAddress orgZeroKnowledgePublicKey
  else
    registrationAfterKeys env updateRegistry [.vendOrgToken, .listVaults] none none

/-! ## Trace observations -/

/-- Holds on `createWallet` effects. -/
def isCreateWallet (e : Effect) : Bool :=
  match e with | .createWallet => true | _ => false

/-- Holds on `getContractDetails` effects. -/
def isGetContractDetails (e : Effect) : Bool :=
  match e with | .getContractDetails _ => true | _ => false

/-- Holds on `executeContract` effects. -/
def isExecuteContract (e : Effect) : Bool :=
  match e with | .executeContract _ _ _ _ => true | _ => false

/-- Holds on `listContracts` effects. -/
def isListContracts (e : Effect) : Bool :=
  match e with | .listContracts => true | _ => false

/-- Holds on log warnings. -/
def isLogWarn (e : Effect) : Bool :=
  match e with | .logWarn _ => true | _ => false

/-- Holds on `vendAppToken` effects. -/
def isVendAppToken (e : Effect) : Bool :=
  match e with | .vendAppToken _ => true | _ => false

/-- Holds on `orgUpdate` effects. -/
def isOrgUpdate (e : Effect) : Bool :=
  match e with | .orgUpdate _ => true | _ => false

/-- An application-token mint whose scope is not the offline-access grant
(used to state that every mint the handler performs carries that grant). -/
def isForeignScopeMint (e : Effect) : Bool :=
  match e with
  | .vendAppToken s => !(s == some "offline_access")
  | _ => false

/-- A ledger-side state change: HD-wallet creation or contract execution. -/
def hasLedgerEffect (tr : List Effect) : Bool :=
  tr.any fun e => isCreateWallet e || isExecuteContract e

/-- Whether the trace contains a contract execution. -/
def hasExecuteContract (tr : List Effect) : Bool :=
  tr.any isExecuteContract

/-- Number of contract executions in the trace. -/
def countExecuteContract (tr : List Effect) : Nat :=
  tr.countP isExecuteContract

/-- Number of application-token mints in the trace. -/
def countVendAppToken (tr : List Effect) : Nat :=
  tr.countP isVendAppToken

/-- Number of organization updates in the trace. -/
def countOrgUpdate (tr : List Effect) : Nat :=
  tr.countP isOrgUpdate

/-- Step function of the ledger-stage order automaton.  The state carries
(seen `listContracts`, seen `createWallet`); `none` marks a violation of the
order actually implemented: the wallet is created only after the contract
listing, and every details fetch and the execution happen only after the
wallet exists. -/
def orderStep (s : Option (Bool × Bool)) (e : Effect) : Option (Bool × Bool) :=
  match s with
  | none => none
  | some (seenList, seenWallet) =>
    match e with
    | .listContracts => some (true, seenWallet)
    | .createWallet => if seenList then some (seenList, true) else none
    | .getContractDetails _ => if seenWallet then some (seenList, seenWallet) else none
    | .executeContract _ _ _ _ => if seenWallet then some (seenList, seenWallet) else none
    | _ => some (seenList, seenWallet)

/-- The trace respects the implemented ledger-stage order. -/
def ledgerOrderOK (tr : List Effect) : Bool :=
  (tr.foldl orderStep (some (false, false))).isSome

/-- Step function of the order the claim asserts: every contract
classification (`getContractDetails`) completes before the wallet is
created; a details fetch after `createWallet` is a violation (`none`). -/
def classifyBeforeWalletStep (s : Option Bool) (e : Effect) : Option Bool :=
  match s with
  | none => none
  | some seenWallet =>
    match e with
    | .createWallet => some true
    | .getContractDetails _ => if seenWallet then none else some seenWallet
    | _ => some seenWallet

/-- The trace classifies all contracts before creating the wallet. -/
def classifyPrecedesWallet (tr : List Effect) : Bool :=
  (tr.foldl classifyBeforeWalletStep (some false)).isSome

/-! ## Lemmas about the classification loop -/

/-- An effect of the classification loop: a details fetch or a log line. -/
def inertLoopEffect (e : Effect) : Bool :=
  isGetContractDetails e || isLogWarn e

/-- Every effect emitted by the classification loop is a details fetch or a
log warning. -/
theorem classifyContracts_trace_shape (details : String → Except Unit ContractDetail)
    (cs : List String) (acc : RegistryRefs) :
    ∀ e ∈ (classifyContracts details cs acc).1, inertLoopEffect e = true := by
  induction cs generalizing acc with
  | nil => intro e he; simp [classifyContracts] at he
  | cons c cs ih =>
    intro e he
    cases hdc : details c with
    | error u =>
      simp only [classifyContracts, hdc, List.mem_cons, List.not_mem_nil, or_false] at he
      rcases he with rfl | rfl <;> rfl
    | ok resp =>
      simp only [classifyContracts, hdc, List.mem_cons] at he
      rcases he with rfl | h
      · rfl
      · exact ih _ e h

/-- An inert effect leaves the order automaton unchanged once the wallet has
been seen. -/
theorem orderStep_inert (e : Effect) (h : inertLoopEffect e = true) (b : Bool) :
    orderStep (some (b, true)) e = some (b, true) := by
  cases e <;> simp [inertLoopEffect, isGetContractDetails, isLogWarn, orderStep] at h ⊢

/-- A list of inert effects leaves the order automaton unchanged once the
wallet has been seen. -/
theorem foldl_orderStep_inert (l : List Effect)
    (h : ∀ e ∈ l, inertLoopEffect e = true) (b : Bool) :
    l.foldl orderStep (some (b, true)) = some (b, true) := by
  induction l with
  | nil => rfl
  | cons e l ih =>
    rw [List.foldl_cons, orderStep_inert e (h e (List.mem_cons_self e l)) b]
    exact ih fun e' he' => h e' (List.mem_cons_of_mem e he')

/-- An inert effect is not a contract execution. -/
theorem inert_not_execute (e : Effect) (h : inertLoopEffect e = true) :
    isExecuteContract e = false := by
  cases e <;> simp [inertLoopEffect, isGetContractDetails, isLogWarn, isExecuteContract] at h ⊢

/-- An inert effect is not an application-token mint. -/
theorem inert_not_vendApp (e : Effect) (h : inertLoopEffect e = true) :
    isVendAppToken e = false := by
  cases e <;> simp [inertLoopEffect, isGetContractDetails, isLogWarn, isVendAppToken] at h ⊢

/-- An inert effect is not an organization update. -/
theorem inert_not_orgUpdate (e : Effect) (h : inertLoopEffect e = true) :
    isOrgUpdate e = false := by
  cases e <;> simp [inertLoopEffect, isGetContractDetails, isLogWarn, isOrgUpdate] at h ⊢

/-- An inert effect is not a foreign-scope mint. -/
theorem inert_not_foreign (e : Effect) (h : inertLoopEffect e = true) :
    isForeignScopeMint e = false := by
  cases e <;> simp [inertLoopEffect, isGetContractDetails, isLogWarn, isForeignScopeMint] at h ⊢

/-- The classification loop emits no contract execution. -/
theorem classifyContracts_no_execute (details : String → Except Unit ContractDetail)
    (cs : List String) (acc : RegistryRefs) :
    hasExecuteContract (classifyContracts details cs acc).1 = false := by
  rw [hasExecuteContract, List.any_eq_false]
  intro e he
  simp only [Bool.not_eq_true]
  exact inert_not_execute e (classifyContracts_trace_shape details cs acc e he)

/-- Generic: a predicate that is false on inert effects is false across the
classification-loop trace. -/
theorem classify_any_eq_false (p : Effect → Bool)
    (hp : ∀ e, inertLoopEffect e = true → p e = false)
    (details : String → Except Unit ContractDetail) (cs : List String)
    (acc : RegistryRefs) :
    ((classifyContracts details cs acc).1).any p = false := by
  rw [List.any_eq_false]
  intro e he
  simp [hp e (classifyContracts_trace_shape details cs acc e he)]

/-- The classification-loop trace contains no contract execution. -/
theorem classify_any_exec (details : String → Except Unit ContractDetail)
    (cs : List String) (acc : RegistryRefs) :
    ((classifyContracts details cs acc).1).any isExecuteContract = false :=
  classify_any_eq_false isExecuteContract inert_not_execute details cs acc

/-- The classification-loop trace contains no application-token mint. -/
theorem classify_any_vendApp (details : String → Except Unit ContractDetail)
    (cs : List String) (acc : RegistryRefs) :
    ((classifyContracts details cs acc).1).any isVendAppToken = false :=
  classify_any_eq_false isVendAppToken inert_not_vendApp details cs acc

/-- The classification-loop trace contains no organization update. -/
theorem classify_any_orgUpdate (details : String → Except Unit ContractDetail)
    (cs : List String) (acc : RegistryRefs) :
    ((classifyContracts details cs acc).1).any isOrgUpdate = false :=
  classify_any_eq_false isOrgUpdate inert_not_orgUpdate details cs acc

/-- Generic: a predicate that is false on inert effects counts zero across
the classification-loop trace. -/
theorem classify_countP_eq_zero (p : Effect → Bool)
    (hp : ∀ e, inertLoopEffect e = true → p e = false)
    (details : String → Except Unit ContractDetail) (cs : List String)
    (acc : RegistryRefs) :
    ((classifyContracts details cs acc).1).countP p = 0 := by
  rw [List.countP_eq_zero]
  intro e he
  simp [hp e (classifyContracts_trace_shape details cs acc e he)]

/-- The classification-loop trace counts no application-token mint. -/
theorem classify_countP_vendApp (details : String → Except Unit ContractDetail)
    (cs : List String) (acc : RegistryRefs) :
    ((classifyContracts details cs acc).1).countP isVendAppToken = 0 :=
  classify_countP_eq_zero isVendAppToken inert_not_vendApp details cs acc

/-- The classification-loop trace contains no foreign-scope mint. -/
theorem classify_any_foreign (details : String → Except Unit ContractDetail)
    (cs : List String) (acc : RegistryRefs) :
    ((classifyContracts details cs acc).1).any isForeignScopeMint = false :=
  classify_any_eq_false isForeignScopeMint inert_not_foreign details cs acc

/-- The classification loop leaves the ledger-order automaton unchanged. -/
theorem classify_foldl_orderStep (details : String → Except Unit ContractDetail)
    (cs : List String) (acc : RegistryRefs) (b : Bool) :
    ((classifyContracts details cs acc).1).foldl orderStep (some (b, true)) = some (b, true) :=
  foldl_orderStep_inert _ (classifyContracts_trace_shape details cs acc) b

/-! ## Claim theorems: consumers with a single stage -/

/-- C9: for every key-exchange-complete event, the Key-Exchange Responder
never acknowledges: every terminal path of the handler negative-acknowledges
(the shared-secret derivation is hardwired to an error, so the guarded ack
branch is unreachable). -/
theorem C9_responder_always_naks (msg : KexCompleteMsg) (env : KexCompleteEnv) :
    (consumeOrganizationImplicitKeyExchangeCompleteMsg msg env).2 = .nak := by
  unfold consumeOrganizationImplicitKeyExchangeCompleteMsg
  repeat' split
  all_goals first
  | rfl
  | (dsimp only []; split <;> rfl)

/-- C5: for every key-exchange-init event, if the organization has no vault
or its vault holds no exchange signing key, the Key-Exchange Initiator
publishes no completion event and negative-acknowledges. -/
theorem C5_no_completion_without_signing_key (msg : KexInitMsg) (env : KexInitEnv)
    (vs : List String) (ks : List VKey)
    (hv : env.vaults = .ok vs) (hk : env.keys = .ok ks)
    (hcond : vs = [] ∨ findSigningKey ks = none) :
    (consumeOrganizationImplicitKeyExchangeInitMsg msg env).1.any isPublish = false ∧
    (consumeOrganizationImplicitKeyExchangeInitMsg msg env).2 = .nak := by
  unfold consumeOrganizationImplicitKeyExchangeInitMsg
  repeat' split
  all_goals simp_all [isPublish]

/-- C4: an organization-created event for a resolvable organization leads to
exactly one vault creation and an ack (given the token vends and the vault
service succeeds); an unresolvable organization id leads to a nak with no
vault creation. -/
theorem C4_vault_provisioner (msg : CreatedOrgMsg) (env : CreatedOrgEnv)
    (oid : String) (hp : msg.parseOk = true) (hid : msg.organization_id = some oid) :
    (env.orgResolved = true → env.vendOrgToken = true → ∀ v, env.createVault = .ok v →
      countCreateVault (consumeCreatedOrganizationMsg msg env).1 = 1 ∧
      (consumeCreatedOrganizationMsg msg env).2 = .ack) ∧
    (env.orgResolved = false →
      countCreateVault (consumeCreatedOrganizationMsg msg env).1 = 0 ∧
      (consumeCreatedOrganizationMsg msg env).2 = .nak) := by
  constructor
  · intro hr hvend v hcv
    simp [consumeCreatedOrganizationMsg, hp, hid, hr, hvend, hcv, countCreateVault]
  · intro hr
    simp [consumeCreatedOrganizationMsg, hp, hid, hr, countCreateVault]

/-- C4 witness: concrete runs of the Vault Provisioner, one resolvable and
one unresolvable. -/
theorem C4_vault_provisioner_witness :
    (countCreateVault (consumeCreatedOrganizationMsg ⟨true, some "org-1"⟩
        ⟨true, "Acme", true, .ok "v1"⟩).1 = 1 ∧
      (consumeCreatedOrganizationMsg ⟨true, some "org-1"⟩
        ⟨true, "Acme", true, .ok "v1"⟩).2 = .ack) ∧
    (countCreateVault (consumeCreatedOrganizationMsg ⟨true, some "org-1"⟩
        ⟨false, "Acme", true, .ok "v1"⟩).1 = 0 ∧
      (consumeCreatedOrganizationMsg ⟨true, some "org-1"⟩
        ⟨false, "Acme", true, .ok "v1"⟩).2 = .nak) :=
  ⟨(C4_vault_provisioner ⟨true, some "org-1"⟩ ⟨true, "Acme", true, .ok "v1"⟩
      "org-1" rfl rfl).1 rfl rfl "v1" rfl,
   (C4_vault_provisioner ⟨true, some "org-1"⟩ ⟨false, "Acme", true, .ok "v1"⟩
      "org-1" rfl rfl).2 rfl⟩

/-- C5 witness: a concrete key-exchange-init run against an organization
whose vault list is empty. -/
theorem C5_no_completion_without_signing_key_witness :
    (consumeOrganizationImplicitKeyExchangeInitMsg ⟨true, some "org-1", some "org-2"⟩
      ⟨true, true, .ok [], .ok [], .ok ⟨some "k", some "C25519", none, some "pk"⟩,
        .ok (some "sig")⟩).1.any isPublish = false ∧
    (consumeOrganizationImplicitKeyExchangeInitMsg ⟨true, some "org-1", some "org-2"⟩
      ⟨true, true, .ok [], .ok [], .ok ⟨some "k", some "C25519", none, some "pk"⟩,
        .ok (some "sig")⟩).2 = .nak :=
  C5_no_completion_without_signing_key _ _ [] [] rfl rfl (.inl rfl)

/-- C6: adding organization D to a baselined application already associated
with organizations A, B, C publishes exactly six key-exchange-init events,
both directions for each pair, and exactly one registration event for D. -/
theorem C6_onboarding_fanout (appID a b c d : String) (env : AddOrgEnv)
    (horgs : env.assocOrgs = [a, b, c])
    (hins : env.insertRowsAffected = 1)
    (hbase : env.baselined = some true)
    (ha : a ≠ d) (hb : b ≠ d) (hc : c ≠ d) :
    countKexInit (addOrganization appID d env).2 = 6 ∧
    countRegistration (addOrganization appID d env).2 = 1 ∧
    PubMsg.keyExchangeInit d a ∈ (addOrganization appID d env).2 ∧
    PubMsg.keyExchangeInit a d ∈ (addOrganization appID d env).2 ∧
    PubMsg.keyExchangeInit d b ∈ (addOrganization appID d env).2 ∧
    PubMsg.keyExchangeInit b d ∈ (addOrganization appID d env).2 ∧
    PubMsg.keyExchangeInit d c ∈ (addOrganization appID d env).2 ∧
    PubMsg.keyExchangeInit c d ∈ (addOrganization appID d env).2 ∧
    PubMsg.registration appID d ∈ (addOrganization appID d env).2 := by
  simp [addOrganization, horgs, hins, hbase, ha, hb, hc,
    initOrgRegistration, initImplicitDiffieHellmanKeyExchange,
    countKexInit, countRegistration, List.countP_cons]

/-! ## Lemmas about the registration stages -/

/-- The `orgAddress` local survives into the result of the ledger stage. -/
theorem ledgerStage_orgAddress (env : RegEnv) (u1 u2 : Bool) (tr1 : List Effect)
    (a d e z : String) (toks : List TokenRec) :
    (registrationLedgerStage env u1 u2 tr1 a d e z toks).orgAddress = some a := by
  unfold registrationLedgerStage
  repeat' (first | split | dsimp only [])

/-- The `orgDomain` local survives into the result of the ledger stage. -/
theorem ledgerStage_orgDomain (env : RegEnv) (u1 u2 : Bool) (tr1 : List Effect)
    (a d e z : String) (toks : List TokenRec) :
    (registrationLedgerStage env u1 u2 tr1 a d e z toks).orgDomain = some d := by
  unfold registrationLedgerStage
  repeat' (first | split | dsimp only [])

/-- The `orgMessagingEndpoint` local survives into the result of the ledger
stage. -/
theorem ledgerStage_orgEndpoint (env : RegEnv) (u1 u2 : Bool) (tr1 : List Effect)
    (a d e z : String) (toks : List TokenRec) :
    (registrationLedgerStage env u1 u2 tr1 a d e z toks).orgMessagingEndpoint = some e := by
  unfold registrationLedgerStage
  repeat' (first | split | dsimp only [])

/-- The `orgZeroKnowledgePublicKey` local survives into the result of the
ledger stage. -/
theorem ledgerStage_orgZk (env : RegEnv) (u1 u2 : Bool) (tr1 : List Effect)
    (a d e z : String) (toks : List TokenRec) :
    (registrationLedgerStage env u1 u2 tr1 a d e z toks).orgZeroKnowledgePublicKey = some z := by
  unfold registrationLedgerStage
  repeat' (first | split | dsimp only [])

/-- Reduction of the registration handler, empty-vault-list case. -/
theorem consumeRegistration_reduce_nil (msg : RegMsg) (env : RegEnv)
    (oid aid : String)
    (hp : msg.parseOk = true) (ho : msg.organization_id = some oid)
    (ha : msg.application_id = some aid) (hu : msg.appUUIDOk = true)
    (hr : env.orgResolved = true) (hv1 : env.vendOrgToken1 = true)
    (hvl : env.vaults = .ok []) :
    consumeOrganizationRegistrationMsg msg env =
      registrationAfterKeys env
        (match msg.update_registry with | some update => update | none => false)
        [.vendOrgToken, .listVaults] none none := by
  simp [consumeOrganizationRegistrationMsg, hp, ho, ha, hu, hr, hv1, hvl]

/-- Reduction of the registration handler, nonempty-vault-list case. -/
theorem consumeRegistration_reduce_cons (msg : RegMsg) (env : RegEnv)
    (oid aid v : String) (vs : List String) (ks1 ks2 : List VKey)
    (hp : msg.parseOk = true) (ho : msg.organization_id = some oid)
    (ha : msg.application_id = some aid) (hu : msg.appUUIDOk = true)
    (hr : env.orgResolved = true) (hv1 : env.vendOrgToken1 = true)
    (hvl : env.vaults = .ok (v :: vs))
    (hk1 : env.secp256k1Keys = .ok ks1) (hk2 : env.babyJubJubKeys = .ok ks2) :
    consumeOrganizationRegistrationMsg msg env =
      registrationAfterKeys env
        (match msg.update_registry with | some update => update | none => false)
        [.vendOrgToken, .listVaults, .listKeys (some "secp256k1"), .listKeys (some "babyJubJub")]
        (match ks1 with
          | key :: _ => (match key.address with | some a => StringOrNil a | none => none)
          | [] => none)
        (match ks2 with
          | key :: _ => (match key.public_key with | some pk => StringOrNil pk | none => none)
          | [] => none) := by
  simp only [consumeOrganizationRegistrationMsg, hp, ho, ha, hu, hr, hv1, hvl, hk1, hk2,
    Bool.not_true, Bool.false_eq_true, if_false, List.length_cons, Nat.succ_pos, if_true,
    gt_iff_lt, Nat.zero_lt_succ, ite_true]
  cases ks1 <;> cases ks2 <;> rfl

/-- The `orgAddress` local is reported unchanged by the metadata stage. -/
theorem afterKeys_orgAddress (env : RegEnv) (u : Bool) (tr0 : List Effect)
    (oA oZ : Option String) :
    (registrationAfterKeys env u tr0 oA oZ).orgAddress = oA := by
  unfold registrationAfterKeys
  repeat' (first | split | dsimp only [])
  all_goals simp_all [ledgerStage_orgAddress]

/-- The `orgDomain` local of the metadata stage, as reported. -/
theorem afterKeys_orgDomain (env : RegEnv) (u : Bool) (tr0 : List Effect)
    (oA oZ : Option String) :
    (registrationAfterKeys env u tr0 oA oZ).orgDomain =
      (match env.metadata.domain with
        | some domain => StringOrNil domain
        | none => none) := by
  unfold registrationAfterKeys
  repeat' (first | split | dsimp only [])
  all_goals simp_all [ledgerStage_orgDomain]

/-- The `orgMessagingEndpoint` local of the metadata stage, as reported. -/
theorem afterKeys_orgEndpoint (env : RegEnv) (u : Bool) (tr0 : List Effect)
    (oA oZ : Option String) :
    (registrationAfterKeys env u tr0 oA oZ).orgMessagingEndpoint =
      (match env.metadata.messaging_endpoint with
        | some messagingEndpoint => StringOrNil messagingEndpoint
        | none => none) := by
  unfold registrationAfterKeys
  repeat' (first | split | dsimp only [])
  all_goals simp_all [ledgerStage_orgEndpoint]

/-- The `orgZeroKnowledgePublicKey` local is reported unchanged by the
metadata stage. -/
theorem afterKeys_orgZk (env : RegEnv) (u : Bool) (tr0 : List Effect)
    (oA oZ : Option String) :
    (registrationAfterKeys env u tr0 oA oZ).orgZeroKnowledgePublicKey = oZ := by
  unfold registrationAfterKeys
  repeat' (first | split | dsimp only [])
  all_goals simp_all [ledgerStage_orgZk]

/-- The four attribute checks of the metadata stage: acknowledgment is only
possible with all four attributes resolved, and the first missing attribute
in check order naks with its own diagnostic before any ledger-side effect. -/
theorem afterKeys_required (env : RegEnv) (u : Bool) (tr0 : List Effect)
    (oA oZ : Option String) (hl : hasLedgerEffect tr0 = false) :
    ((registrationAfterKeys env u tr0 oA oZ).signal = .ack →
      oA.isSome ∧
      (match env.metadata.domain with
        | some domain => StringOrNil domain
        | none => none).isSome ∧
      (match env.metadata.messaging_endpoint with
        | some messagingEndpoint => StringOrNil messagingEndpoint
        | none => none).isSome ∧
      oZ.isSome) ∧
    (oA = none →
      (registrationAfterKeys env u tr0 oA oZ).signal = .nak ∧
      Effect.logWarn "failed to resolve organization public address for storage in the public org registry"
        ∈ (registrationAfterKeys env u tr0 oA oZ).trace ∧
      hasLedgerEffect (registrationAfterKeys env u tr0 oA oZ).trace = false) ∧
    (oA.isSome →
      (match env.metadata.domain with
        | some domain => StringOrNil domain
        | none => none) = none →
      (registrationAfterKeys env u tr0 oA oZ).signal = .nak ∧
      Effect.logWarn "failed to resolve organization domain for storage in the public org registry"
        ∈ (registrationAfterKeys env u tr0 oA oZ).trace ∧
      hasLedgerEffect (registrationAfterKeys env u tr0 oA oZ).trace = false) ∧
    (oA.isSome →
      (match env.metadata.domain with
        | some domain => StringOrNil domain
        | none => none).isSome →
      (match env.metadata.messaging_endpoint with
        | some messagingEndpoint => StringOrNil messagingEndpoint
        | none => none) = none →
      (registrationAfterKeys env u tr0 oA oZ).signal = .nak ∧
      Effect.logWarn "failed to resolve organization messaging endpoint for storage in the public org registry"
        ∈ (registrationAfterKeys env u tr0 oA oZ).trace ∧
      hasLedgerEffect (registrationAfterKeys env u tr0 oA oZ).trace = false) ∧
    (oA.isSome →
      (match env.metadata.domain with
        | some domain => StringOrNil domain
        | none => none).isSome →
      (match env.metadata.messaging_endpoint with
        | some messagingEndpoint => StringOrNil messagingEndpoint
        | none => none).isSome →
      oZ = none →
      (registrationAfterKeys env u tr0 oA oZ).signal = .nak ∧
      Effect.logWarn "failed to resolve organization zero-knowledge public key for storage in the public org registry"
        ∈ (registrationAfterKeys env u tr0 oA oZ).trace ∧
      hasLedgerEffect (registrationAfterKeys env u tr0 oA oZ).trace = false) := by
  have hL : ∀ s, hasLedgerEffect (tr0 ++ [Effect.logWarn s]) = false := by
    intro s
    simp [hasLedgerEffect, List.any_append, isCreateWallet, isExecuteContract] at hl ⊢
    exact hl
  have c2 : oA = none →
      (registrationAfterKeys env u tr0 oA oZ).signal = .nak ∧
      Effect.logWarn "failed to resolve organization public address for storage in the public org registry"
        ∈ (registrationAfterKeys env u tr0 oA oZ).trace ∧
      hasLedgerEffect (registrationAfterKeys env u tr0 oA oZ).trace = false := by
    intro h
    subst h
    unfold registrationAfterKeys
    dsimp only []
    exact ⟨rfl, by simp, hL _⟩
  have c3 : oA.isSome →
      (match env.metadata.domain with
        | some domain => StringOrNil domain
        | none => none) = none →
      (registrationAfterKeys env u tr0 oA oZ).signal = .nak ∧
      Effect.logWarn "failed to resolve organization domain for storage in the public org registry"
        ∈ (registrationAfterKeys env u tr0 oA oZ).trace ∧
      hasLedgerEffect (registrationAfterKeys env u tr0 oA oZ).trace = false := by
    intro h1 h2
    cases hA : oA with
    | none => rw [hA] at h1; simp at h1
    | some a =>
      subst hA
      unfold registrationAfterKeys
      dsimp only []
      rw [h2]
      exact ⟨rfl, by simp, hL _⟩
  have c4 : oA.isSome →
      (match env.metadata.domain with
        | some domain => StringOrNil domain
        | none => none).isSome →
      (match env.metadata.messaging_endpoint with
        | some messagingEndpoint => StringOrNil messagingEndpoint
        | none => none) = none →
      (registrationAfterKeys env u tr0 oA oZ).signal = .nak ∧
      Effect.logWarn "failed to resolve organization messaging endpoint for storage in the public org registry"
        ∈ (registrationAfterKeys env u tr0 oA oZ).trace ∧
      hasLedgerEffect (registrationAfterKeys env u tr0 oA oZ).trace = false := by
    intro h1 h2 h3
    cases hA : oA with
    | none => rw [hA] at h1; simp at h1
    | some a =>
      subst hA
      cases hD : (match env.metadata.domain with
        | some domain => StringOrNil domain
        | none => none) with
      | none => rw [hD] at h2; simp at h2
      | some d =>
        unfold registrationAfterKeys
        dsimp only []
        rw [hD, h3]
        exact ⟨rfl, by simp, hL _⟩
  have c5 : oA.isSome →
      (match env.metadata.domain with
        | some domain => StringOrNil domain
        | none => none).isSome →
      (match env.metadata.messaging_endpoint with
        | some messagingEndpoint => StringOrNil messagingEndpoint
        | none => none).isSome →
      oZ = none →
      (registrationAfterKeys env u tr0 oA oZ).signal = .nak ∧
      Effect.logWarn "failed to resolve organization zero-knowledge public key for storage in the public org registry"
        ∈ (registrationAfterKeys env u tr0 oA oZ).trace ∧
      hasLedgerEffect (registrationAfterKeys env u tr0 oA oZ).trace = false := by
    intro h1 h2 h3 h4
    cases hA : oA with
    | none => rw [hA] at h1; simp at h1
    | some a =>
      subst hA
      cases hD : (match env.metadata.domain with
        | some domain => StringOrNil domain
        | none => none) with
      | none => rw [hD] at h2; simp at h2
      | some d =>
        cases hE : (match env.metadata.messaging_endpoint with
          | some messagingEndpoint => StringOrNil messagingEndpoint
          | none => none) with
        | none => rw [hE] at h3; simp at h3
        | some e =>
          subst h4
          unfold registrationAfterKeys
          dsimp only []
          rw [hD, hE]
          exact ⟨rfl, by simp, hL _⟩
  refine ⟨?_, c2, c3, c4, c5⟩
  intro hack
  cases hA : oA with
  | none =>
    have hsig := (c2 hA).1
    rw [hack] at hsig
    exact absurd hsig (by decide)
  | some a =>
    cases hD : (match env.metadata.domain with
      | some domain => StringOrNil domain
      | none => none) with
    | none =>
      have hsig := (c3 (by rw [hA]; rfl) hD).1
      rw [hack] at hsig
      exact absurd hsig (by decide)
    | some d =>
      cases hE : (match env.metadata.messaging_endpoint with
        | some messagingEndpoint => StringOrNil messagingEndpoint
        | none => none) with
      | none =>
        have hsig := (c4 (by rw [hA]; rfl) (by rw [hD]; rfl) hE).1
        rw [hack] at hsig
        exact absurd hsig (by decide)
      | some e =>
        cases hZ : oZ with
        | none =>
          have hsig := (c5 (by rw [hA]; rfl) (by rw [hD]; rfl) (by rw [hE]; rfl) hZ).1
          rw [hack] at hsig
          exact absurd hsig (by decide)
        | some z =>
          exact ⟨rfl, rfl, rfl, rfl⟩

/-- Silent termination in the ledger stage happens exactly on a failed
broadcast: a silent end implies the execution was attempted and failed with
the broadcast warning logged, and conversely an attempted execution that
fails ends silent with the warning logged. -/
theorem ledgerStage_silent_char (env : RegEnv) (u1 u2 : Bool) (tr1 : List Effect)
    (a d e z : String) (toks : List TokenRec)
    (h2 : tr1.any isExecuteContract = false) :
    ((registrationLedgerStage env u1 u2 tr1 a d e z toks).signal = .silent →
      env.executeContract = .error () ∧
      hasExecuteContract (registrationLedgerStage env u1 u2 tr1 a d e z toks).trace = true ∧
      Effect.logWarn "organization registry transaction broadcast failed on behalf of organization"
        ∈ (registrationLedgerStage env u1 u2 tr1 a d e z toks).trace) ∧
    (hasExecuteContract (registrationLedgerStage env u1 u2 tr1 a d e z toks).trace = true →
      env.executeContract = .error () →
      (registrationLedgerStage env u1 u2 tr1 a d e z toks).signal = .silent ∧
      Effect.logWarn "organization registry transaction broadcast failed on behalf of organization"
        ∈ (registrationLedgerStage env u1 u2 tr1 a d e z toks).trace) := by
  unfold registrationLedgerStage
  repeat' (first | split | dsimp only [])
  all_goals refine ⟨?_, ?_⟩
  all_goals intros
  all_goals first
  | exact absurd (by assumption : Signal.nak = Signal.silent) (by decide)
  | exact absurd (by assumption : Signal.ack = Signal.silent) (by decide)
  | (refine ⟨?_, ?_, ?_⟩
     · assumption
     · simp [hasExecuteContract, List.any_append, isExecuteContract]
     · simp)
  | (refine ⟨rfl, ?_⟩
     simp)
  | (simp_all only [hasExecuteContract, List.any_append, List.any_cons, List.any_nil,
       isExecuteContract, classify_any_exec, Bool.or_false, Bool.false_or, Bool.or_self,
       Bool.false_eq_true]
     done)
  | simp_all

/-- The ledger stage respects the implemented order: contract listing, then
wallet creation, then classification, then execution. -/
theorem ledgerStage_order (env : RegEnv) (u1 u2 : Bool) (tr1 : List Effect)
    (a d e z : String) (toks : List TokenRec)
    (h1 : tr1.foldl orderStep (some (false, false)) = some (false, false)) :
    ledgerOrderOK (registrationLedgerStage env u1 u2 tr1 a d e z toks).trace = true := by
  unfold registrationLedgerStage
  repeat' (first | split | dsimp only [])
  all_goals simp [ledgerOrderOK, List.foldl_append, h1, orderStep, classify_foldl_orderStep]

/-- Lift of `ledgerStage_silent_char` across the metadata stage. -/
theorem afterKeys_silent_char (env : RegEnv) (u : Bool) (tr0 : List Effect)
    (oA oZ : Option String)
    (h2 : tr0.any isExecuteContract = false) :
    ((registrationAfterKeys env u tr0 oA oZ).signal = .silent →
      env.executeContract = .error () ∧
      hasExecuteContract (registrationAfterKeys env u tr0 oA oZ).trace = true ∧
      Effect.logWarn "organization registry transaction broadcast failed on behalf of organization"
        ∈ (registrationAfterKeys env u tr0 oA oZ).trace) ∧
    (hasExecuteContract (registrationAfterKeys env u tr0 oA oZ).trace = true →
      env.executeContract = .error () →
      (registrationAfterKeys env u tr0 oA oZ).signal = .silent ∧
      Effect.logWarn "organization registry transaction broadcast failed on behalf of organization"
        ∈ (registrationAfterKeys env u tr0 oA oZ).trace) := by
  unfold registrationAfterKeys
  repeat' (first | split | dsimp only [])
  all_goals first
  | (refine ⟨?_, ?_⟩
     all_goals intros
     all_goals first
     | exact absurd (by assumption : Signal.nak = Signal.silent) (by decide)
     | (simp_all only [hasExecuteContract, List.any_append, List.any_cons, List.any_nil,
          isExecuteContract, Bool.or_false, Bool.false_or, Bool.false_eq_true]
        done))
  | exact ledgerStage_silent_char env _ _ _ _ _ _ _ _
      (by simp [List.any_append, h2, isExecuteContract])

/-- Lift of `ledgerStage_order` across the metadata stage. -/
theorem afterKeys_order (env : RegEnv) (u : Bool) (tr0 : List Effect)
    (oA oZ : Option String)
    (h1 : tr0.foldl orderStep (some (false, false)) = some (false, false)) :
    ledgerOrderOK (registrationAfterKeys env u tr0 oA oZ).trace = true := by
  unfold registrationAfterKeys
  repeat' (first | split | dsimp only [])
  all_goals first
  | (simp only [ledgerOrderOK, List.foldl_append, h1]
     simp [orderStep]
     done)
  | exact ledgerStage_order env _ _ _ _ _ _ _ _
      (by simp [List.foldl_append, h1, orderStep])

/-- The classification-loop trace counts no organization update. -/
theorem classify_countP_orgUpdate (details : String → Except Unit ContractDetail)
    (cs : List String) (acc : RegistryRefs) :
    ((classifyContracts details cs acc).1).countP isOrgUpdate = 0 :=
  classify_countP_eq_zero isOrgUpdate inert_not_orgUpdate details cs acc

/-- The ledger stage updates the organization only on an acknowledged run
whose broadcast succeeded and whose metadata was marked for amendment. -/
theorem ledgerStage_update_char (env : RegEnv) (u1 u2 : Bool) (tr1 : List Effect)
    (a d e z : String) (toks : List TokenRec)
    (h0 : tr1.countP isOrgUpdate = 0) :
    ((registrationLedgerStage env u1 u2 tr1 a d e z toks).trace.countP isOrgUpdate ≠ 0 →
      (registrationLedgerStage env u1 u2 tr1 a d e z toks).signal = .ack ∧
      env.executeContract = .ok () ∧ u2 = true) ∧
    (env.executeContract = .error () →
      (registrationLedgerStage env u1 u2 tr1 a d e z toks).trace.countP isOrgUpdate = 0) ∧
    (u2 = false →
      (registrationLedgerStage env u1 u2 tr1 a d e z toks).trace.countP isOrgUpdate = 0) := by
  unfold registrationLedgerStage
  repeat' (first | split | dsimp only [])
  all_goals refine ⟨?_, ?_, ?_⟩
  all_goals intros
  all_goals first
  | exact ⟨rfl, by assumption, by assumption⟩
  | (simp_all only [List.countP_append, List.countP_cons, List.countP_nil, isOrgUpdate,
       classify_countP_orgUpdate, h0, Bool.false_eq_true, if_false, if_true, Nat.add_zero,
       Nat.zero_add, ne_eq, eq_self_iff_true, not_true_eq_false]
     done)
  | simp_all

/-- Lift of `ledgerStage_update_char` across the metadata stage: the
amendment flag is the absence of a string `address` in the metadata. -/
theorem afterKeys_update_char (env : RegEnv) (u : Bool) (tr0 : List Effect)
    (oA oZ : Option String)
    (h0 : tr0.countP isOrgUpdate = 0) :
    ((registrationAfterKeys env u tr0 oA oZ).trace.countP isOrgUpdate ≠ 0 →
      (registrationAfterKeys env u tr0 oA oZ).signal = .ack ∧
      env.executeContract = .ok () ∧ env.metadata.addressPresent = false) ∧
    (env.executeContract = .error () →
      (registrationAfterKeys env u tr0 oA oZ).trace.countP isOrgUpdate = 0) ∧
    (env.metadata.addressPresent = true →
      (registrationAfterKeys env u tr0 oA oZ).trace.countP isOrgUpdate = 0) := by
  unfold registrationAfterKeys
  repeat' (first | split | dsimp only [])
  all_goals first
  | (refine ⟨?_, ?_, ?_⟩
     all_goals intros
     all_goals (simp_all only [List.countP_append, List.countP_cons, List.countP_nil,
                  isOrgUpdate, h0, Bool.false_eq_true, if_false, if_true, Nat.add_zero,
                  Nat.zero_add, ne_eq, eq_self_iff_true, not_true_eq_false]
                done))
  | exact ⟨
      fun hne =>
        have h := (ledgerStage_update_char env _ _ _ _ _ _ _ _
          (by simp [List.countP_append, List.countP_cons, isOrgUpdate, h0])).1 hne
        ⟨h.1, h.2.1, by simpa using h.2.2⟩,
      fun hf => (ledgerStage_update_char env _ _ _ _ _ _ _ _
        (by simp [List.countP_append, List.countP_cons, isOrgUpdate, h0])).2.1 hf,
      fun hap => (ledgerStage_update_char env _ _ _ _ _ _ _ _
        (by simp [List.countP_append, List.countP_cons, isOrgUpdate, h0])).2.2
        (by simp [hap])⟩

/-- C7: on a registration run where the organization attributes resolve and
exactly one deployed contract of each required registry type exists, the
handler issues exactly one contract-execution call, against the organization
registry contract, with method `registerOrg` (or `updateOrg` when the event
carries `update_registry = true`) and argument list (address, name, domain,
messaging endpoint, zero-knowledge public key, "\x7b\x7d"). -/
theorem C7_single_registration_call (msg : RegMsg) (env : RegEnv)
    (oid aid v c1 c2 i1 a1 i2 a2 addr zk dom endp w : String)
    (vs : List String) (k1 k2 : VKey) (ks1 ks2 : List VKey)
    (hp : msg.parseOk = true) (ho : msg.organization_id = some oid)
    (ha : msg.application_id = some aid) (hu : msg.appUUIDOk = true)
    (hr : env.orgResolved = true) (hv1 : env.vendOrgToken1 = true)
    (hvl : env.vaults = .ok (v :: vs))
    (hk1 : env.secp256k1Keys = .ok (k1 :: ks1)) (hk1a : k1.address = some addr)
    (hane : addr ≠ "")
    (hk2 : env.babyJubJubKeys = .ok (k2 :: ks2)) (hk2p : k2.public_key = some zk)
    (hzne : zk ≠ "")
    (hmd : env.metadata.domain = some dom) (hdne : dom ≠ "")
    (hme : env.metadata.messaging_endpoint = some endp) (hene : endp ≠ "")
    (htk : env.appTokens = [] → env.vendAppToken = true)
    (hc : env.contracts = .ok [c1, c2])
    (hd1 : env.contractDetails c1 = .ok ⟨i1, some contractTypeERC1820Registry, some a1⟩)
    (hd2 : env.contractDetails c2 = .ok ⟨i2, some contractTypeOrgRegistry, some a2⟩)
    (hi1 : i1 ≠ "") (hi2 : i2 ≠ "")
    (hv2 : env.vendOrgToken2 = true)
    (hw : env.createWallet = .ok w) (hwne : w ≠ "") :
    countExecuteContract (consumeOrganizationRegistrationMsg msg env).trace = 1 ∧
    Effect.executeContract i2
      (if msg.update_registry = some true then organizationUpdateRegistrationMethod
        else organizationRegistrationMethod)
      [addr, env.orgName, dom, endp, zk, "\x7b\x7d"] w
      ∈ (consumeOrganizationRegistrationMsg msg env).trace := by
  rcases hat : env.appTokens with _ | ⟨t, ts⟩
  · have hva := htk hat
    rcases hap : env.metadata.addressPresent with _ | _
    all_goals rcases hur : msg.update_registry with _ | u
    all_goals try rcases u with _ | _
    all_goals rcases hex : env.executeContract with _ | _
    all_goals
      simp [consumeOrganizationRegistrationMsg, registrationAfterKeys, registrationLedgerStage,
        classifyContracts, StringOrNil, countExecuteContract, isExecuteContract,
        List.countP_append, List.countP_cons,
        contractTypeERC1820Registry, contractTypeOrgRegistry,
        organizationRegistrationMethod, organizationUpdateRegistrationMethod,
        hp, ho, ha, hu, hr, hv1, hvl, hk1, hk1a, hane, hk2, hk2p, hzne, hmd, hdne,
        hme, hene, hat, hva, hc, hd1, hd2, hi1, hi2, hv2, hw, hwne, hap, hur, hex]
  · rcases hap : env.metadata.addressPresent with _ | _
    all_goals rcases hur : msg.update_registry with _ | u
    all_goals try rcases u with _ | _
    all_goals rcases hex : env.executeContract with _ | _
    all_goals
      simp [consumeOrganizationRegistrationMsg, registrationAfterKeys, registrationLedgerStage,
        classifyContracts, StringOrNil, countExecuteContract, isExecuteContract,
        List.countP_append, List.countP_cons,
        contractTypeERC1820Registry, contractTypeOrgRegistry,
        organizationRegistrationMethod, organizationUpdateRegistrationMethod,
        hp, ho, ha, hu, hr, hv1, hvl, hk1, hk1a, hane, hk2, hk2p, hzne, hmd, hdne,
        hme, hene, hat, hc, hd1, hd2, hi1, hi2, hv2, hw, hwne, hap, hur, hex]

/-- The ledger stage reports the head of its token list as the token used. -/
theorem ledgerStage_usedTok (env : RegEnv) (u1 u2 : Bool) (tr1 : List Effect)
    (a d e z : String) (toks : List TokenRec) :
    (registrationLedgerStage env u1 u2 tr1 a d e z toks).usedAppToken = toks.head? := by
  unfold registrationLedgerStage
  repeat' (first | split | dsimp only [])
  all_goals rfl

/-- The ledger stage mints no application token. -/
theorem ledgerStage_countVendApp (env : RegEnv) (u1 u2 : Bool) (tr1 : List Effect)
    (a d e z : String) (toks : List TokenRec) :
    (registrationLedgerStage env u1 u2 tr1 a d e z toks).trace.countP isVendAppToken =
      tr1.countP isVendAppToken := by
  unfold registrationLedgerStage
  repeat' (first | split | dsimp only [])
  all_goals simp [List.countP_append, List.countP_cons, List.countP_nil, isVendAppToken,
    classify_countP_vendApp]

/-- The ledger stage adds no foreign-scope mint. -/
theorem ledgerStage_anyForeign (env : RegEnv) (u1 u2 : Bool) (tr1 : List Effect)
    (a d e z : String) (toks : List TokenRec) :
    (registrationLedgerStage env u1 u2 tr1 a d e z toks).trace.any isForeignScopeMint =
      tr1.any isForeignScopeMint := by
  unfold registrationLedgerStage
  repeat' (first | split | dsimp only [])
  all_goals simp [List.any_append, List.any_cons, List.any_nil, isForeignScopeMint,
    classify_any_foreign]

/-- Token bookkeeping of the metadata stage: the token used is the head of
the existing tokens, or the freshly minted offline-access token when none
existed; at most one mint happens, only in the latter case, and never with a
scope other than offline-access. -/
theorem afterKeys_token_char (env : RegEnv) (u : Bool) (tr0 : List Effect)
    (oA oZ : Option String) :
    ((registrationAfterKeys env u tr0 oA oZ).usedAppToken = none ∨
      (env.appTokens = [] ∧
        (registrationAfterKeys env u tr0 oA oZ).usedAppToken =
          some { scope := some "offline_access" }) ∨
      (env.appTokens ≠ [] ∧
        (registrationAfterKeys env u tr0 oA oZ).usedAppToken = env.appTokens.head?)) ∧
    ((registrationAfterKeys env u tr0 oA oZ).trace.countP isVendAppToken =
        tr0.countP isVendAppToken ∨
      (env.appTokens = [] ∧
        (registrationAfterKeys env u tr0 oA oZ).trace.countP isVendAppToken =
          tr0.countP isVendAppToken + 1)) ∧
    ((registrationAfterKeys env u tr0 oA oZ).trace.any isForeignScopeMint =
      tr0.any isForeignScopeMint) := by
  unfold registrationAfterKeys
  repeat' (first | split | dsimp only [])
  all_goals refine ⟨?_, ?_, ?_⟩
  all_goals simp_all [ledgerStage_usedTok, ledgerStage_countVendApp, ledgerStage_anyForeign,
    List.countP_append, List.countP_cons, List.countP_nil, isVendAppToken,
    List.any_append, List.any_cons, List.any_nil, isForeignScopeMint, List.isEmpty_iff]

/-- Token bookkeeping of the full registration handler. -/
theorem consume_token_char (msg : RegMsg) (env : RegEnv) :
    ((consumeOrganizationRegistrationMsg msg env).usedAppToken = none ∨
      (env.appTokens = [] ∧
        (consumeOrganizationRegistrationMsg msg env).usedAppToken =
          some { scope := some "offline_access" }) ∨
      (env.appTokens ≠ [] ∧
        (consumeOrganizationRegistrationMsg msg env).usedAppToken = env.appTokens.head?)) ∧
    (countVendAppToken (consumeOrganizationRegistrationMsg msg env).trace = 0 ∨
      (env.appTokens = [] ∧
        countVendAppToken (consumeOrganizationRegistrationMsg msg env).trace = 1)) ∧
    ((consumeOrganizationRegistrationMsg msg env).trace.any isForeignScopeMint = false) := by
  unfold countVendAppToken consumeOrganizationRegistrationMsg
  repeat' (first | split | dsimp only [])
  all_goals refine ⟨?_, ?_, ?_⟩
  all_goals first
  | exact .inl rfl
  | (simp only [List.countP_cons, List.countP_nil, List.any_cons, List.any_nil,
       isVendAppToken, isForeignScopeMint, Bool.false_eq_true, if_false, if_true,
       Bool.or_false, Bool.false_or, eq_self_iff_true, true_or, or_true]
     done)
  | exact (afterKeys_token_char env _ _ _ _).1
  | exact (afterKeys_token_char env _ _ _ _).2.1
  | exact (afterKeys_token_char env _ _ _ _).2.2

/-- C8 (amended): the application-token lookup does not filter by scope: the
handler uses the first existing application token for the application
whatever its scope, and only when no token exists at all does it mint one,
which then carries the offline-access grant; every mint in any run carries
the offline-access scope. -/
theorem C8_amended_token_resolution (msg : RegMsg) (env : RegEnv) :
    (∀ t ts, env.appTokens = t :: ts →
      ∀ t1, (consumeOrganizationRegistrationMsg msg env).usedAppToken = some t1 → t1 = t) ∧
    (env.appTokens ≠ [] →
      countVendAppToken (consumeOrganizationRegistrationMsg msg env).trace = 0) ∧
    ((consumeOrganizationRegistrationMsg msg env).trace.any isForeignScopeMint = false) ∧
    (env.appTokens = [] →
      ∀ t1, (consumeOrganizationRegistrationMsg msg env).usedAppToken = some t1 →
        t1.scope = some "offline_access") := by
  obtain ⟨hused, hcount, hforeign⟩ := consume_token_char msg env
  refine ⟨?_, ?_, hforeign, ?_⟩
  · intro t ts hats t1 hu
    rcases hused with h | ⟨he, _⟩ | ⟨_, hv⟩
    · rw [h] at hu; exact absurd hu (by simp)
    · rw [hats] at he; exact absurd he (by simp)
    · rw [hv, hats] at hu
      simpa using hu.symm
  · intro hne
    rcases hcount with h | ⟨he, _⟩
    · exact h
    · exact absurd he hne
  · intro he t1 hu
    rcases hused with h | ⟨_, hv⟩ | ⟨hne, _⟩
    · rw [h] at hu; exact absurd hu (by simp)
    · rw [hv] at hu
      have ht := hu.symm
      simp only [Option.some.injEq] at ht
      rw [ht]
    · exact absurd he hne

/-! ## Concrete registration runs -/

/-- A concrete registration message (no `update_registry` field). -/
def regMsg0 : RegMsg := ⟨true, some "org-1", some "app-1", true, none⟩

/-- A concrete registration environment on which every step succeeds:
resolvable organization, one vault, one secp256k1 key carrying an address,
one babyJubJub key carrying a public key, metadata with endpoint and domain
but no address, no pre-existing application token, and exactly one deployed
contract of each registry type. -/
def regEnvHappy : RegEnv where
  orgResolved := true
  orgName := "Acme"
  metadata := ⟨some "https://endpoint.example", some "example.com", false⟩
  vendOrgToken1 := true
  vaults := .ok ["v1"]
  secp256k1Keys := .ok [⟨some "secp", some "secp256k1", some "0xabc", some "spub"⟩]
  babyJubJubKeys := .ok [⟨some "zk", some "babyJubJub", none, some "zkpub"⟩]
  appTokens := []
  vendAppToken := true
  contracts := .ok ["c1", "c2"]
  vendOrgToken2 := true
  createWallet := .ok "w1"
  contractDetails := fun c =>
    if c = "c1" then .ok ⟨"c1", some contractTypeERC1820Registry, some "0x1820"⟩
    else if c = "c2" then .ok ⟨"c2", some contractTypeOrgRegistry, some "0xreg"⟩
    else .error ()
  executeContract := .ok ()

/-- Silent termination of the registration handler happens exactly on a
failed broadcast (lift of the stage lemmas to the full handler). -/
theorem consume_silent_char (msg : RegMsg) (env : RegEnv) :
    ((consumeOrganizationRegistrationMsg msg env).signal = .silent →
      env.executeContract = .error () ∧
      hasExecuteContract (consumeOrganizationRegistrationMsg msg env).trace = true ∧
      Effect.logWarn "organization registry transaction broadcast failed on behalf of organization"
        ∈ (consumeOrganizationRegistrationMsg msg env).trace) ∧
    (hasExecuteContract (consumeOrganizationRegistrationMsg msg env).trace = true →
      env.executeContract = .error () →
      (consumeOrganizationRegistrationMsg msg env).signal = .silent ∧
      Effect.logWarn "organization registry transaction broadcast failed on behalf of organization"
        ∈ (consumeOrganizationRegistrationMsg msg env).trace) := by
  unfold consumeOrganizationRegistrationMsg
  repeat' (first | split | dsimp only [])
  all_goals first
  | (refine ⟨?_, ?_⟩
     all_goals intros
     all_goals first
     | exact absurd (by assumption : Signal.nak = Signal.silent) (by decide)
     | (simp_all only [hasExecuteContract, List.any_append, List.any_cons, List.any_nil,
          isExecuteContract, Bool.or_false, Bool.false_or, Bool.false_eq_true]
        done))
  | exact afterKeys_silent_char env _ _ _ _ rfl

/-- The full registration handler respects the implemented ledger order. -/
theorem consume_order (msg : RegMsg) (env : RegEnv) :
    ledgerOrderOK (consumeOrganizationRegistrationMsg msg env).trace = true := by
  unfold consumeOrganizationRegistrationMsg
  repeat' (first | split | dsimp only [])
  all_goals first
  | (simp [ledgerOrderOK, orderStep]
     done)
  | exact afterKeys_order env _ _ _ _ rfl

/-- C1 counterexample: on a run whose contract execution fails, the handler
logs the broadcast failure but does not acknowledge the message (the claim
says it is acknowledged anyway). -/
theorem C1_counterexample :
    hasExecuteContract (consumeOrganizationRegistrationMsg regMsg0
      { regEnvHappy with executeContract := .error () }).trace = true ∧
    Effect.logWarn "organization registry transaction broadcast failed on behalf of organization"
      ∈ (consumeOrganizationRegistrationMsg regMsg0
        { regEnvHappy with executeContract := .error () }).trace ∧
    ¬ (consumeOrganizationRegistrationMsg regMsg0
      { regEnvHappy with executeContract := .error () }).signal = .ack := by
  decide

/-- C1 (amended): when the contract-execution call is reached and fails, the
handler logs the failure and returns without acknowledging or
negative-acknowledging the message, so the handler itself never requests
redelivery. -/
theorem C1_amended_broadcast_failure (msg : RegMsg) (env : RegEnv)
    (hf : env.executeContract = .error ())
    (hx : hasExecuteContract (consumeOrganizationRegistrationMsg msg env).trace = true) :
    (consumeOrganizationRegistrationMsg msg env).signal = .silent ∧
    Effect.logWarn "organization registry transaction broadcast failed on behalf of organization"
      ∈ (consumeOrganizationRegistrationMsg msg env).trace :=
  (consume_silent_char msg env).2 hx hf

/-- C1 witness: the concrete broadcast-failure run ends silent with the
warning logged. -/
theorem C1_amended_witness :
    (consumeOrganizationRegistrationMsg regMsg0
      { regEnvHappy with executeContract := .error () }).signal = .silent ∧
    Effect.logWarn "organization registry transaction broadcast failed on behalf of organization"
      ∈ (consumeOrganizationRegistrationMsg regMsg0
        { regEnvHappy with executeContract := .error () }).trace :=
  C1_amended_broadcast_failure regMsg0 _ rfl (by decide)

/-- C2 counterexample: on the fully successful concrete run, the handler
both classifies contracts and creates a wallet, and the classification does
not precede the wallet creation (the claim says step 5 completes before
step 6). -/
theorem C2_counterexample :
    (consumeOrganizationRegistrationMsg regMsg0 regEnvHappy).trace.any isGetContractDetails = true ∧
    (consumeOrganizationRegistrationMsg regMsg0 regEnvHappy).trace.any isCreateWallet = true ∧
    classifyPrecedesWallet (consumeOrganizationRegistrationMsg regMsg0 regEnvHappy).trace = false := by
  decide

/-- C2 (amended): the Registration Coordinator lists the deployed contracts
before minting the organization token and provisioning the wallet, but it
classifies the contracts only after the wallet is provisioned; every
details fetch and the execution happen after the wallet exists, and the only
failure that does not negative-acknowledge is the broadcast failure, which
ends the delivery with no acknowledgment at all. -/
theorem C2_amended_stage_order (msg : RegMsg) (env : RegEnv) :
    ledgerOrderOK (consumeOrganizationRegistrationMsg msg env).trace = true ∧
    ((consumeOrganizationRegistrationMsg msg env).signal = .silent ↔
      (hasExecuteContract (consumeOrganizationRegistrationMsg msg env).trace = true ∧
        env.executeContract = .error ())) := by
  refine ⟨consume_order msg env, ?_, ?_⟩
  · intro h
    have hc := (consume_silent_char msg env).1 h
    exact ⟨hc.2.1, hc.1⟩
  · intro h
    exact ((consume_silent_char msg env).2 h.1 h.2).1

/-- C2 witness: the order automaton accepts the concrete successful run, and
the concrete broadcast-failure run is the silent one. -/
theorem C2_amended_witness :
    ledgerOrderOK (consumeOrganizationRegistrationMsg regMsg0 regEnvHappy).trace = true ∧
    (consumeOrganizationRegistrationMsg regMsg0
      { regEnvHappy with executeContract := .error () }).signal = .silent :=
  ⟨(C2_amended_stage_order regMsg0 regEnvHappy).1,
   (C2_amended_stage_order regMsg0 { regEnvHappy with executeContract := .error () }).2.mpr
     ⟨by decide, rfl⟩⟩

/-- C10: the organization record is mutated only after the contract
execution succeeds: any `organization.Update` in the trace implies an
acknowledged run with a successful broadcast and a pending address
amendment; a failed broadcast, or metadata that already carried an address,
leaves the stored organization untouched. -/
theorem C10_update_only_after_success (msg : RegMsg) (env : RegEnv) :
    (countOrgUpdate (consumeOrganizationRegistrationMsg msg env).trace ≠ 0 →
      (consumeOrganizationRegistrationMsg msg env).signal = .ack ∧
      env.executeContract = .ok () ∧ env.metadata.addressPresent = false) ∧
    (env.executeContract = .error () →
      countOrgUpdate (consumeOrganizationRegistrationMsg msg env).trace = 0) ∧
    (env.metadata.addressPresent = true →
      countOrgUpdate (consumeOrganizationRegistrationMsg msg env).trace = 0) := by
  unfold countOrgUpdate consumeOrganizationRegistrationMsg
  repeat' (first | split | dsimp only [])
  all_goals first
  | (refine ⟨?_, ?_, ?_⟩
     all_goals intros
     all_goals (simp_all only [List.countP_cons, List.countP_nil, isOrgUpdate,
                  Bool.false_eq_true, if_false, if_true, Nat.add_zero, Nat.zero_add, ne_eq,
                  eq_self_iff_true, not_true_eq_false]
                done))
  | exact afterKeys_update_char env _ _ _ _ rfl

/-- C10 witness: on the concrete broadcast-failure run no update happens,
and the concrete successful run does update (address was pending) and is
acknowledged. -/
theorem C10_update_only_after_success_witness :
    countOrgUpdate (consumeOrganizationRegistrationMsg regMsg0
      { regEnvHappy with executeContract := .error () }).trace = 0 ∧
    ((consumeOrganizationRegistrationMsg regMsg0 regEnvHappy).signal = .ack ∧
      RegEnv.executeContract regEnvHappy = .ok () ∧
      (regEnvHappy.metadata).addressPresent = false) :=
  ⟨(C10_update_only_after_success regMsg0
      { regEnvHappy with executeContract := .error () }).2.1 rfl,
   (C10_update_only_after_success regMsg0 regEnvHappy).1 (by decide)⟩

/-- C3: acknowledgment of a registration message requires all four of
address, domain, messaging endpoint and zero-knowledge public key to be
resolvable; when the handler reaches the attribute checks, the first missing
attribute forces a nak carrying its field-specific diagnostic, before any
ledger-side effect (wallet creation or contract execution). -/
theorem C3_required_fields (msg : RegMsg) (env : RegEnv)
    (oid aid : String) (vs : List String) (ks1 ks2 : List VKey)
    (hp : msg.parseOk = true) (ho : msg.organization_id = some oid)
    (ha : msg.application_id = some aid) (hu : msg.appUUIDOk = true)
    (hr : env.orgResolved = true) (hv1 : env.vendOrgToken1 = true)
    (hvl : env.vaults = .ok vs) (hk1 : env.secp256k1Keys = .ok ks1)
    (hk2 : env.babyJubJubKeys = .ok ks2) :
    ((consumeOrganizationRegistrationMsg msg env).signal = .ack →
      (consumeOrganizationRegistrationMsg msg env).orgAddress.isSome ∧
      (consumeOrganizationRegistrationMsg msg env).orgDomain.isSome ∧
      (consumeOrganizationRegistrationMsg msg env).orgMessagingEndpoint.isSome ∧
      (consumeOrganizationRegistrationMsg msg env).orgZeroKnowledgePublicKey.isSome) ∧
    ((consumeOrganizationRegistrationMsg msg env).orgAddress = none →
      (consumeOrganizationRegistrationMsg msg env).signal = .nak ∧
      Effect.logWarn "failed to resolve organization public address for storage in the public org registry"
        ∈ (consumeOrganizationRegistrationMsg msg env).trace ∧
      hasLedgerEffect (consumeOrganizationRegistrationMsg msg env).trace = false) ∧
    ((consumeOrganizationRegistrationMsg msg env).orgAddress.isSome →
      (consumeOrganizationRegistrationMsg msg env).orgDomain = none →
      (consumeOrganizationRegistrationMsg msg env).signal = .nak ∧
      Effect.logWarn "failed to resolve organization domain for storage in the public org registry"
        ∈ (consumeOrganizationRegistrationMsg msg env).trace ∧
      hasLedgerEffect (consumeOrganizationRegistrationMsg msg env).trace = false) ∧
    ((consumeOrganizationRegistrationMsg msg env).orgAddress.isSome →
      (consumeOrganizationRegistrationMsg msg env).orgDomain.isSome →
      (consumeOrganizationRegistrationMsg msg env).orgMessagingEndpoint = none →
      (consumeOrganizationRegistrationMsg msg env).signal = .nak ∧
      Effect.logWarn "failed to resolve organization messaging endpoint for storage in the public org registry"
        ∈ (consumeOrganizationRegistrationMsg msg env).trace ∧
      hasLedgerEffect (consumeOrganizationRegistrationMsg msg env).trace = false) ∧
    ((consumeOrganizationRegistrationMsg msg env).orgAddress.isSome →
      (consumeOrganizationRegistrationMsg msg env).orgDomain.isSome →
      (consumeOrganizationRegistrationMsg msg env).orgMessagingEndpoint.isSome →
      (consumeOrganizationRegistrationMsg msg env).orgZeroKnowledgePublicKey = none →
      (consumeOrganizationRegistrationMsg msg env).signal = .nak ∧
      Effect.logWarn "failed to resolve organization zero-knowledge public key for storage in the public org registry"
        ∈ (consumeOrganizationRegistrationMsg msg env).trace ∧
      hasLedgerEffect (consumeOrganizationRegistrationMsg msg env).trace = false) := by
  cases vs with
  | nil =>
    have hred := consumeRegistration_reduce_nil msg env oid aid hp ho ha hu hr hv1 hvl
    rw [hred, afterKeys_orgAddress, afterKeys_orgDomain, afterKeys_orgEndpoint, afterKeys_orgZk]
    exact afterKeys_required env _ _ none none rfl
  | cons v vs =>
    have hred := consumeRegistration_reduce_cons msg env oid aid v vs ks1 ks2
      hp ho ha hu hr hv1 hvl hk1 hk2
    rw [hred, afterKeys_orgAddress, afterKeys_orgDomain, afterKeys_orgEndpoint, afterKeys_orgZk]
    exact afterKeys_required env _ _ _ _ rfl

/-- C3 witness: a concrete run with a resolved address but no domain in the
organization metadata naks with the domain diagnostic and no ledger-side
effect. -/
theorem C3_required_fields_witness :
    (consumeOrganizationRegistrationMsg regMsg0
      { regEnvHappy with metadata := ⟨some "https://endpoint.example", none, false⟩ }).signal = .nak ∧
    Effect.logWarn "failed to resolve organization domain for storage in the public org registry"
      ∈ (consumeOrganizationRegistrationMsg regMsg0
        { regEnvHappy with metadata := ⟨some "https://endpoint.example", none, false⟩ }).trace ∧
    hasLedgerEffect (consumeOrganizationRegistrationMsg regMsg0
      { regEnvHappy with metadata := ⟨some "https://endpoint.example", none, false⟩ }).trace = false :=
  (C3_required_fields regMsg0
      { regEnvHappy with metadata := ⟨some "https://endpoint.example", none, false⟩ }
      "org-1" "app-1" ["v1"]
      [⟨some "secp", some "secp256k1", some "0xabc", some "spub"⟩]
      [⟨some "zk", some "babyJubJub", none, some "zkpub"⟩]
      rfl rfl rfl rfl rfl rfl rfl rfl rfl).2.2.1 (by decide) (by decide)

/-- C6 witness: the fan-out for the concrete application app-1 with
organizations A, B, C and new organization D. -/
theorem C6_onboarding_fanout_witness :
    countKexInit (addOrganization "app-1" "D" ⟨["A", "B", "C"], 1, some true⟩).2 = 6 ∧
    countRegistration (addOrganization "app-1" "D" ⟨["A", "B", "C"], 1, some true⟩).2 = 1 ∧
    PubMsg.keyExchangeInit "D" "A" ∈ (addOrganization "app-1" "D" ⟨["A", "B", "C"], 1, some true⟩).2 ∧
    PubMsg.keyExchangeInit "A" "D" ∈ (addOrganization "app-1" "D" ⟨["A", "B", "C"], 1, some true⟩).2 ∧
    PubMsg.keyExchangeInit "D" "B" ∈ (addOrganization "app-1" "D" ⟨["A", "B", "C"], 1, some true⟩).2 ∧
    PubMsg.keyExchangeInit "B" "D" ∈ (addOrganization "app-1" "D" ⟨["A", "B", "C"], 1, some true⟩).2 ∧
    PubMsg.keyExchangeInit "D" "C" ∈ (addOrganization "app-1" "D" ⟨["A", "B", "C"], 1, some true⟩).2 ∧
    PubMsg.keyExchangeInit "C" "D" ∈ (addOrganization "app-1" "D" ⟨["A", "B", "C"], 1, some true⟩).2 ∧
    PubMsg.registration "app-1" "D" ∈ (addOrganization "app-1" "D" ⟨["A", "B", "C"], 1, some true⟩).2 :=
  C6_onboarding_fanout "app-1" "A" "B" "C" "D" _ rfl rfl rfl
    (by decide) (by decide) (by decide)

/-- C7 witness: the concrete successful run issues exactly one execution
call, with method registerOrg and the resolved argument list. -/
theorem C7_single_registration_call_witness :
    countExecuteContract (consumeOrganizationRegistrationMsg regMsg0 regEnvHappy).trace = 1 ∧
    Effect.executeContract "c2"
      (if regMsg0.update_registry = some true then organizationUpdateRegistrationMethod
        else organizationRegistrationMethod)
      ["0xabc", regEnvHappy.orgName, "example.com", "https://endpoint.example", "zkpub",
        "\x7b\x7d"] "w1"
      ∈ (consumeOrganizationRegistrationMsg regMsg0 regEnvHappy).trace :=
  C7_single_registration_call regMsg0 regEnvHappy "org-1" "app-1" "v1" "c1" "c2" "c1" "0x1820"
    "c2" "0xreg" "0xabc" "zkpub" "example.com" "https://endpoint.example" "w1"
    [] ⟨some "secp", some "secp256k1", some "0xabc", some "spub"⟩
    ⟨some "zk", some "babyJubJub", none, some "zkpub"⟩ [] []
    rfl rfl rfl rfl rfl rfl rfl rfl rfl (by decide) rfl rfl (by decide) rfl (by decide)
    rfl (by decide) (fun _ => rfl) rfl rfl rfl (by decide) (by decide)
    rfl rfl (by decide)

/-- C8 counterexample: when one application token exists without the
offline-access scope, the handler resolves and uses it anyway, mints
nothing, and the run is acknowledged — so the token used does not carry the
offline-access scope. -/
theorem C8_counterexample :
    (consumeOrganizationRegistrationMsg regMsg0
      { regEnvHappy with appTokens := [{ scope := none }] }).usedAppToken =
        some { scope := none } ∧
    countVendAppToken (consumeOrganizationRegistrationMsg regMsg0
      { regEnvHappy with appTokens := [{ scope := none }] }).trace = 0 ∧
    (consumeOrganizationRegistrationMsg regMsg0
      { regEnvHappy with appTokens := [{ scope := none }] }).signal = .ack := by
  decide

/-- C8 witness: the run with a pre-existing token mints nothing, and the
token used by the fresh-mint run carries the offline-access scope. -/
theorem C8_amended_witness :
    countVendAppToken (consumeOrganizationRegistrationMsg regMsg0
      { regEnvHappy with appTokens := [{ scope := none }] }).trace = 0 ∧
    TokenRec.scope { scope := some "offline_access" } = some "offline_access" :=
  ⟨(C8_amended_token_resolution regMsg0
      { regEnvHappy with appTokens := [{ scope := none }] }).2.1 (by decide),
   (C8_amended_token_resolution regMsg0 regEnvHappy).2.2.2 rfl
      { scope := some "offline_access" } (by decide)⟩

end Ident
